import Mathlib

/-!
Verification development for the `msft-basic-rag` repository.

The backend (`src/BE/main.py`) is a FastAPI service: a `/query` endpoint
that retrieves search hits, builds a prompt from a fixed system
instruction, recent conversation turns and the retrieved context, calls a
chat-completion service, stores the exchange in an in-process map of
conversations, and returns the answer with shaped sources; plus endpoints
to clear and read a session's conversation and a health probe.  The
ingestion CLI (`src/ingestion/ingest.py`) turns text files into upload
records.

Python strings are sequences of code points; we embed them as `List Char`.
The process-wide `conversations` dict is embedded as an association list
from session ids to turn lists (a Python dict never holds a duplicate
key).  The two external services (search and completion) are modelled by
passing their outcome (`Except`) into the handler; the handler returns the
new store, the result (`Except` error = HTTP 500 detail text), and the
message sequence handed to the completion client, when the handler got
that far.
-/

abbrev Str := List Char

/-- The apostrophe code point, kept out of string literals. -/
def apos : Char := Char.ofNat 39

/-- The fixed system instruction of `main.py` lines 136-140. -/
def systemInstruction : Str :=
  "You are a helpful AI assistant. Answer the user".toList ++ [apos] ++
  "s question based on the provided context. If the context doesn".toList ++ [apos] ++
  "t contain relevant information, say so politely. Keep your answers clear and concise.".toList

/-- One stored conversation turn: `{"role": ..., "content": ...}`. -/
structure Turn where
  role : Str
  content : Str
deriving DecidableEq

/-- One message handed to the completion client (SystemMessage / UserMessage). -/
structure Msg where
  role : Str
  content : Str
deriving DecidableEq

/-- A search hit as a partial record: `result.get(key, default)` in the code
means each field may be absent. -/
structure Hit where
  filename? : Option Str
  content? : Option Str
deriving DecidableEq

/-- A shaped source of the query response (`main.py` lines 120-123). -/
structure Source where
  filename : Str
  content : Str
deriving DecidableEq

/-- The `/query` response model. -/
structure QueryResponse where
  answer : Str
  sources : List Source
  session_id : Str
deriving DecidableEq

/-- The `/query` request model (`query`, `session_id`, `max_results`). -/
structure QueryRequest where
  query : Str
  session_id : Str
  max_results : Nat
deriving DecidableEq

deriving instance DecidableEq for Except

/-- The in-process `conversations` dict: session id to list of turns. -/
abbrev Store := List (Str × List Turn)

def storeFind (s : Store) (k : Str) : Option (List Turn) :=
  match s with
  | [] => none
  | (k1, v) :: rest => if k1 = k then some v else storeFind rest k

/-- `session_id in conversations`. -/
def storeContainsKey (s : Store) (k : Str) : Bool :=
  (storeFind s k).isSome

/-- `conversations[k] = v` (replace if present, insert otherwise). -/
def storeSet (s : Store) (k : Str) (v : List Turn) : Store :=
  match s with
  | [] => [(k, v)]
  | (k1, v1) :: rest => if k1 = k then (k1, v) :: rest else (k1, v1) :: storeSet rest k v

/-- `del conversations[k]`. -/
def storeErase (s : Store) (k : Str) : Store :=
  match s with
  | [] => []
  | (k1, v1) :: rest => if k1 = k then rest else (k1, v1) :: storeErase rest k

/-- `conversations.get(k, [])`. -/
def storeGetD (s : Store) (k : Str) : List Turn :=
  (storeFind s k).getD []

/-- `result.get("content", "")` (`main.py` line 119/122). -/
def hitContent (r : Hit) : Str := r.content?.getD []

/-- `result.get("filename", "Unknown")` (`main.py` line 121). -/
def hitFilename (r : Hit) : Str := r.filename?.getD "Unknown".toList

/-- `content[:200] + "..."` (`main.py` line 122). -/
def truncateContent (s : Str) : Str := s.take 200 ++ "...".toList

/-- One shaped source per hit (`main.py` lines 120-123). -/
def shapeSource (r : Hit) : Source :=
  { filename := hitFilename r, content := truncateContent (hitContent r) }

/-- The context string of `main.py` line 126:
`"\n\n".join(contexts) if contexts else "No relevant documents found."`
where `contexts` holds each hit's content. -/
def contextString (hits : List Hit) : Str :=
  let contexts := hits.map hitContent
  if contexts.isEmpty then "No relevant documents found.".toList
  else List.intercalate "\n\n".toList contexts

/-- `conversation_history[-5:]` (`main.py` line 144). -/
def recentTurns (history : List Turn) : List Turn :=
  history.drop (history.length - 5)

/-- The per-turn role mapping of `main.py` lines 145-150: a user turn
becomes a user message, anything else a system message with the literal
prefix `"Assistant: "`. -/
def histTurnToMsg (t : Turn) : Msg :=
  if t.role = "user".toList then { role := "user".toList, content := t.content }
  else { role := "system".toList, content := "Assistant: ".toList ++ t.content }

/-- The message sequence built for the completion client
(`main.py` lines 135-154). -/
def buildMessages (history : List Turn) (contextStr q : Str) : List Msg :=
  ({ role := "system".toList, content := systemInstruction } ::
    (recentTurns history).map histTurnToMsg) ++
  [{ role := "user".toList,
     content := "Context:\n".toList ++ contextStr ++ "\n\nQuestion: ".toList ++ q }]

/-- Outcome of one `/query` request: the HTTP result (`Except` error is
the 500 detail text), the conversations map afterwards, and the message
sequence handed to the completion client, `none` when the handler failed
before reaching that call. -/
structure QueryOutcome where
  result : Except Str QueryResponse
  store : Store
  sent : Option (List Msg)
deriving DecidableEq

/-- The `/query` handler (`main.py` lines 92-179).  `searchConfigured` and
`openaiConfigured` are whether the two clients were initialised;
`searchRes` is the outcome of the search call and iteration, and
`completeRes` the outcome of `openai_client.complete`. -/
def query (searchConfigured openaiConfigured : Bool) (conversations : Store)
    (req : QueryRequest) (searchRes : Except Str (List Hit))
    (completeRes : Except Str Str) : QueryOutcome :=
  if !searchConfigured then
    { result := .error "Azure Search client not configured".toList,
      store := conversations, sent := none }
  else if !openaiConfigured then
    { result := .error "Azure OpenAI client not configured".toList,
      store := conversations, sent := none }
  else
    match searchRes with
    | .error e =>
      { result := .error ("Error processing query: ".toList ++ e),
        store := conversations, sent := none }
    | .ok hits =>
      let sources := hits.map shapeSource
      let contextStr := contextString hits
      let conversations1 :=
        if storeContainsKey conversations req.session_id then conversations
        else storeSet conversations req.session_id []
      let history := storeGetD conversations1 req.session_id
      let messages := buildMessages history contextStr req.query
      match completeRes with
      | .error e =>
        { result := .error ("Error processing query: ".toList ++ e),
          store := conversations1, sent := some messages }
      | .ok answer =>
        let history2 := history ++
          [{ role := "user".toList, content := req.query },
           { role := "assistant".toList, content := answer }]
        { result := .ok { answer := answer, sources := sources,
                          session_id := req.session_id },
          store := storeSet conversations1 req.session_id history2,
          sent := some messages }

/-- Outcome of `DELETE /conversation/{session_id}`: the response message
and the conversations map afterwards.  The handler is total: it always
answers 200 with a message. -/
structure ClearOutcome where
  message : Str
  store : Store
deriving DecidableEq

/-- The `clear_conversation` handler (`main.py` lines 182-188). -/
def clear_conversation (conversations : Store) (sid : Str) : ClearOutcome :=
  if storeContainsKey conversations sid then
    { message := "Conversation history cleared for session ".toList ++ sid,
      store := storeErase conversations sid }
  else
    { message := "No conversation found for session ".toList ++ sid,
      store := conversations }

/-- Response of `GET /conversation/{session_id}` (`main.py` lines 191-197). -/
structure GetConvResponse where
  session_id : Str
  messages : List Turn
deriving DecidableEq

/-- The `get_conversation` handler. -/
def get_conversation (conversations : Store) (sid : Str) : GetConvResponse :=
  { session_id := sid, messages := storeGetD conversations sid }

/-- A JSON value of the health response: string or boolean field. -/
inductive JVal where
  | s : Str → JVal
  | b : Bool → JVal
deriving DecidableEq

/-- The health handler `root` (`main.py` lines 81-89), as the ordered list
of (key, value) fields of the returned object. -/
def root (searchConfigured openaiConfigured : Bool) : List (Str × JVal) :=
  [("message".toList, .s "RAG Backend API is running".toList),
   ("status".toList, .s "healthy".toList),
   ("search_configured".toList, .b searchConfigured),
   ("openai_configured".toList, .b openaiConfigured)]

/-! ## Ingestion (`src/ingestion/ingest.py`) -/

/-- A file of the data directory: its name (final component) and text. -/
structure FileEntry where
  name : Str
  text : Str
deriving DecidableEq

/-- One upload record of `read_documents`. -/
structure DocRecord where
  id : Str
  filename : Str
  content : Str
deriving DecidableEq

/-- Index of the last occurrence of a character, as `str.rfind`. -/
def rfindChar (c : Char) : Str → Option Nat
  | [] => none
  | x :: xs =>
    match rfindChar c xs with
    | some i => some (i + 1)
    | none => if x = c then some 0 else none

/-- `PurePath.stem`: the name without its last suffix, where the suffix is
`name[i:]` for the last dot index `i` only when `0 < i < len(name) - 1`. -/
def pathStem (name : Str) : Str :=
  match rfindChar (Char.ofNat 46) name with
  | some i => if 0 < i ∧ i < name.length - 1 then name.take i else name
  | none => name

/-- `data_path.glob("*.txt")`: the files whose name ends in `.txt`
(`fnmatch` lets `*` match any leading run, dotfiles included). -/
def txtGlob (dir : List FileEntry) : List FileEntry :=
  dir.filter (fun f => List.isSuffixOf ".txt".toList f.name)

/-- `read_documents` (`ingest.py` lines 83-97): one record per globbed
file, with `id = file_path.stem`, `filename = file_path.name`,
`content` the full text. -/
def read_documents (dir : List FileEntry) : List DocRecord :=
  (txtGlob dir).map (fun f => { id := pathStem f.name, filename := f.name, content := f.text })

/-! ## Store lemmas -/

theorem storeFind_set_self (s : Store) (k : Str) (v : List Turn) :
    storeFind (storeSet s k v) k = some v := by
  induction s with
  | nil => simp [storeSet, storeFind]
  | cons hd t ih =>
    obtain ⟨k1, v1⟩ := hd
    by_cases hk : k1 = k <;> simp [storeSet, storeFind, hk, ih]

theorem storeGetD_set_self (s : Store) (k : Str) (v : List Turn) :
    storeGetD (storeSet s k v) k = v := by
  simp [storeGetD, storeFind_set_self]

theorem storeGetD_entry (s : Store) (k : Str) :
    storeGetD (if storeContainsKey s k then s else storeSet s k []) k = storeGetD s k := by
  by_cases h : storeContainsKey s k
  · simp [h]
  · have hf : storeFind s k = none := by
      cases hfind : storeFind s k with
      | none => rfl
      | some v => simp [storeContainsKey, hfind] at h
    simp [h, storeGetD, storeFind_set_self, hf]

theorem storeFind_eq_none_of_not_mem (s : Store) (k : Str)
    (h : k ∉ s.map Prod.fst) : storeFind s k = none := by
  induction s with
  | nil => rfl
  | cons hd t ih =>
    obtain ⟨k1, v1⟩ := hd
    simp only [List.map_cons, List.mem_cons, not_or] at h
    have hk : k1 ≠ k := fun e => h.1 e.symm
    simp [storeFind, hk, ih h.2]

theorem storeFind_erase_self (s : Store) (k : Str)
    (hnd : (s.map Prod.fst).Nodup) :
    storeFind (storeErase s k) k = none := by
  induction s with
  | nil => rfl
  | cons hd t ih =>
    obtain ⟨k1, v1⟩ := hd
    simp only [List.map_cons, List.nodup_cons] at hnd
    by_cases hk : k1 = k
    · subst hk
      simpa [storeErase] using storeFind_eq_none_of_not_mem t k1 hnd.1
    · simp [storeErase, storeFind, hk, ih hnd.2]

theorem getLast?_cons_concat {α : Type} (x a : α) (l : List α) :
    (x :: (l ++ [a])).getLast? = some a := by
  rw [← List.cons_append, List.getLast?_concat]

/-! ## Claim theorems -/

/-- Claim C4: a query whose retrieval and generation both succeed appends
exactly a user turn (the raw query) then an assistant turn (the answer) to
the session's conversation; a retrieval failure or a generation failure
returns the 500 detail text and leaves the turn sequence read back for the
session unchanged. -/
theorem claim_C4 (store : Store) (req : QueryRequest) (hits : List Hit)
    (answer e : Str) (comp : Except Str Str) :
    (storeGetD (query true true store req (Except.ok hits) (Except.ok answer)).store
        req.session_id
      = storeGetD store req.session_id ++
        [{ role := "user".toList, content := req.query },
         { role := "assistant".toList, content := answer }]) ∧
    ((query true true store req (Except.error e) comp).result
        = Except.error ("Error processing query: ".toList ++ e) ∧
      (query true true store req (Except.error e) comp).store = store) ∧
    ((query true true store req (Except.ok hits) (Except.error e)).result
        = Except.error ("Error processing query: ".toList ++ e) ∧
      storeGetD (query true true store req (Except.ok hits) (Except.error e)).store
          req.session_id
        = storeGetD store req.session_id) := by
  refine ⟨?_, ⟨?_, ?_⟩, ⟨?_, ?_⟩⟩
  · simp [query, storeGetD_set_self, storeGetD_entry]
  · cases comp <;> simp [query]
  · cases comp <;> simp [query]
  · simp [query]
  · simp [query, storeGetD_entry]

/-- Claim C5: the context string placed into the prompt (the final user
message sent to the completion client) is the hits' content fields joined
by a blank line when there is at least one hit, and the literal
`"No relevant documents found."` when there are none. -/
theorem claim_C5 (store : Store) (req : QueryRequest) (hits : List Hit)
    (comp : Except Str Str) :
    ∃ ms, (query true true store req (Except.ok hits) comp).sent = some ms ∧
      ms.getLast? = some (Msg.mk "user".toList
        ("Context:\n".toList ++
          (if hits = [] then "No relevant documents found.".toList
           else List.intercalate "\n\n".toList (hits.map hitContent)) ++
          "\n\nQuestion: ".toList ++ req.query)) := by
  have hctx : contextString hits =
      (if hits = [] then "No relevant documents found.".toList
       else List.intercalate "\n\n".toList (hits.map hitContent)) := by
    cases hits with
    | nil => rfl
    | cons h t => simp [contextString]
  cases comp with
  | error e =>
    refine ⟨buildMessages (storeGetD store req.session_id) (contextString hits)
      req.query, ?_, ?_⟩
    · simp [query, storeGetD_entry]
    · simp [buildMessages, hctx, getLast?_cons_concat]
  | ok a =>
    refine ⟨buildMessages (storeGetD store req.session_id) (contextString hits)
      req.query, ?_, ?_⟩
    · simp [query, storeGetD_entry]
    · simp [buildMessages, hctx, getLast?_cons_concat]

/-- Claim C7 counterexample: the health response has no field named
`completion_configured` (the code names the completion flag
`openai_configured`). -/
theorem claim_C7_counterexample :
    ¬ ("completion_configured".toList ∈ (root true true).map Prod.fst) := by
  decide

/-- Claim C7 (amended): the health response has exactly the fields
`message`, `status`, `search_configured` and `openai_configured`, the two
booleans reporting whether the search and completion clients are
configured. -/
theorem claim_C7 (s o : Bool) :
    (root s o).map Prod.fst =
      ["message".toList, "status".toList,
       "search_configured".toList, "openai_configured".toList] ∧
    ("search_configured".toList, JVal.b s) ∈ root s o ∧
    ("openai_configured".toList, JVal.b o) ∈ root s o := by
  refine ⟨rfl, ?_, ?_⟩ <;> simp [root]

/-- Claim C9: a hit without a filename field is shaped with the literal
filename `"Unknown"`; a hit without a content field contributes the empty
string as its context segment and its shaped source content is exactly
`"..."`. -/
theorem claim_C9 (r : Hit) :
    (r.filename? = none → (shapeSource r).filename = "Unknown".toList) ∧
    (r.content? = none →
      hitContent r = [] ∧ (shapeSource r).content = "...".toList) := by
  constructor
  · intro h
    simp [shapeSource, hitFilename, h]
  · intro h
    simp [shapeSource, hitContent, truncateContent, h]

/-- Witness for C9 at the hit with both fields absent. -/
theorem claim_C9_witness :
    (shapeSource { filename? := none, content? := none }).filename = "Unknown".toList ∧
    hitContent { filename? := none, content? := none } = [] ∧
    (shapeSource { filename? := none, content? := none }).content = "...".toList :=
  ⟨(claim_C9 { filename? := none, content? := none }).1 rfl,
   (claim_C9 { filename? := none, content? := none }).2 rfl⟩

/-- The role mapping as the claim words it: a turn whose role is
`"assistant"` becomes a system message prefixed with `"Assistant: "`, a
turn whose role is `"user"` a user message with the same content. -/
def specRoleMsg (t : Turn) : Msg :=
  if t.role = "assistant".toList then
    { role := "system".toList, content := "Assistant: ".toList ++ t.content }
  else { role := "user".toList, content := t.content }

/-- Claim C1: the message sequence sent to the completion client is one
system message with the fixed instruction, then the recent stored turns in
chronological order mapped by role (user turns to user messages, assistant
turns to system messages prefixed `"Assistant: "`), then one user message
`"Context:\n" ++ context_str ++ "\n\nQuestion: " ++ query`. -/
theorem claim_C1 (store : Store) (req : QueryRequest) (hits : List Hit)
    (comp : Except Str Str)
    (hroles : ∀ t ∈ storeGetD store req.session_id,
      t.role = "user".toList ∨ t.role = "assistant".toList) :
    (query true true store req (Except.ok hits) comp).sent =
      some (Msg.mk "system".toList systemInstruction ::
        ((recentTurns (storeGetD store req.session_id)).map specRoleMsg ++
         [Msg.mk "user".toList ("Context:\n".toList ++ contextString hits ++
            "\n\nQuestion: ".toList ++ req.query)])) := by
  have hmap : (recentTurns (storeGetD store req.session_id)).map histTurnToMsg
      = (recentTurns (storeGetD store req.session_id)).map specRoleMsg := by
    apply List.map_congr_left
    intro t ht
    rcases hroles t (List.drop_subset _ _ ht) with h1 | h1
    · simp only [histTurnToMsg, specRoleMsg, h1]
      rw [if_pos trivial, if_neg (by decide)]
    · simp only [histTurnToMsg, specRoleMsg, h1]
      rw [if_neg (by decide), if_pos trivial]
  cases comp with
  | error e => simp [query, storeGetD_entry, buildMessages, hmap]
  | ok a => simp [query, storeGetD_entry, buildMessages, hmap]

/-- Witness for C1: a concrete query on an empty store. -/
theorem claim_C1_witness :
    (query true true [] (QueryRequest.mk "q".toList "s".toList 3)
        (Except.ok []) (Except.ok "a".toList)).sent =
      some (Msg.mk "system".toList systemInstruction ::
        ((recentTurns (storeGetD [] "s".toList)).map specRoleMsg ++
         [Msg.mk "user".toList ("Context:\n".toList ++ contextString [] ++
            "\n\nQuestion: ".toList ++ "q".toList)])) :=
  claim_C1 [] (QueryRequest.mk "q".toList "s".toList 3) [] (Except.ok "a".toList)
    (by simp [storeGetD, storeFind])

/-- Claim C3: each retrieved hit's Source carries the first 200 characters
of the hit's content followed by `"..."`, appended unconditionally; a
content of length 50 yields a source content of length 53 whose last three
characters are `"..."`. -/
theorem claim_C3 (store : Store) (req : QueryRequest) (hits : List Hit)
    (answer : Str) :
    (∃ resp, (query true true store req (Except.ok hits) (Except.ok answer)).result
        = Except.ok resp ∧
      resp.sources = hits.map (fun r => Source.mk (hitFilename r)
        ((hitContent r).take 200 ++ "...".toList))) ∧
    (∀ s : Str, s.length = 50 →
      (truncateContent s).length = 53 ∧ (truncateContent s).drop 50 = "...".toList) := by
  constructor
  · refine ⟨QueryResponse.mk answer (hits.map shapeSource) req.session_id, ?_, ?_⟩
    · simp [query]
    · simp [shapeSource, truncateContent]
  · intro s hs
    have ht : s.take 200 = s := List.take_of_length_le (by omega)
    constructor
    · simp only [truncateContent, ht, List.length_append, hs]
      rfl
    · rw [truncateContent, ht, ← hs, List.drop_left]

/-- Witness for C3 at a concrete content of length 50. -/
theorem claim_C3_witness :
    (truncateContent (List.replicate 50 (Char.ofNat 97))).length = 53 ∧
    (truncateContent (List.replicate 50 (Char.ofNat 97))).drop 50 = "...".toList :=
  (claim_C3 [] (QueryRequest.mk [] [] 3) [] []).2
    (List.replicate 50 (Char.ofNat 97)) (by decide)

theorem storeFind_eq_none_of_containsKey_false (s : Store) (k : Str)
    (h : storeContainsKey s k = false) : storeFind s k = none := by
  cases hf : storeFind s k with
  | none => rfl
  | some v => simp [storeContainsKey, hf] at h

/-- Claim C6: clearing a conversation removes the session's entry
entirely, reading it back afterwards gives an empty message sequence,
clearing a missing session is a no-op (not an error: the handler is total
and always answers 200), and the existed-vs-missing distinction shows only
in the message text. -/
theorem claim_C6 (store : Store) (sid : Str)
    (hnd : (store.map Prod.fst).Nodup) :
    storeFind (clear_conversation store sid).store sid = none ∧
    (get_conversation (clear_conversation store sid).store sid).messages = [] ∧
    (storeContainsKey store sid = false → (clear_conversation store sid).store = store) ∧
    ((clear_conversation store sid).message
        = "Conversation history cleared for session ".toList ++ sid ∨
     (clear_conversation store sid).message
        = "No conversation found for session ".toList ++ sid) := by
  by_cases hc : storeContainsKey store sid = true
  · have hf := storeFind_erase_self store sid hnd
    refine ⟨?_, ?_, ?_, Or.inl ?_⟩
    · simp [clear_conversation, hc, hf]
    · simp [clear_conversation, get_conversation, hc, storeGetD, hf]
    · intro h
      rw [hc] at h
      cases h
    · simp [clear_conversation, hc]
  · have hc2 : storeContainsKey store sid = false := by
      simpa using hc
    have hf := storeFind_eq_none_of_containsKey_false store sid hc2
    refine ⟨?_, ?_, ?_, Or.inr ?_⟩
    · simp [clear_conversation, hc2, hf]
    · simp [clear_conversation, get_conversation, hc2, storeGetD, hf]
    · intro h
      simp [clear_conversation, hc2]
    · simp [clear_conversation, hc2]

/-- Witness for C6 on the empty store. -/
theorem claim_C6_witness :
    storeFind (clear_conversation [] "x".toList).store "x".toList = none ∧
    (get_conversation (clear_conversation [] "x".toList).store "x".toList).messages = [] ∧
    (storeContainsKey ([] : Store) "x".toList = false →
      (clear_conversation [] "x".toList).store = []) ∧
    ((clear_conversation [] "x".toList).message
        = "Conversation history cleared for session ".toList ++ "x".toList ∨
     (clear_conversation [] "x".toList).message
        = "No conversation found for session ".toList ++ "x".toList) :=
  claim_C6 [] "x".toList (by simp)

/-- Claim C10: when a session has no stored conversation and the search
succeeds but the completion fails, the request errors yet an empty
conversation entry for the session is left in the store, so a later clear
reports the cleared message while a read returns no turns. -/
theorem claim_C10 (store : Store) (req : QueryRequest) (hits : List Hit) (e : Str)
    (hmiss : storeFind store req.session_id = none) :
    (query true true store req (Except.ok hits) (Except.error e)).result
        = Except.error ("Error processing query: ".toList ++ e) ∧
    storeFind (query true true store req (Except.ok hits) (Except.error e)).store
        req.session_id = some [] ∧
    (clear_conversation
        (query true true store req (Except.ok hits) (Except.error e)).store
        req.session_id).message
      = "Conversation history cleared for session ".toList ++ req.session_id ∧
    (get_conversation
        (query true true store req (Except.ok hits) (Except.error e)).store
        req.session_id).messages = [] := by
  have hc : storeContainsKey store req.session_id = false := by
    simp [storeContainsKey, hmiss]
  refine ⟨?_, ?_, ?_, ?_⟩
  · simp [query]
  · simp [query, storeContainsKey, hmiss, storeFind_set_self]
  · simp [query, clear_conversation, storeContainsKey, hmiss, storeFind_set_self]
  · simp [query, get_conversation, storeGetD, storeContainsKey, hmiss, storeFind_set_self]

/-- Witness for C10 at a concrete failing generation on a fresh session. -/
theorem claim_C10_witness :
    (query true true [] (QueryRequest.mk "q".toList "x".toList 3)
        (Except.ok []) (Except.error "boom".toList)).result
        = Except.error ("Error processing query: ".toList ++ "boom".toList) ∧
    storeFind (query true true [] (QueryRequest.mk "q".toList "x".toList 3)
        (Except.ok []) (Except.error "boom".toList)).store "x".toList = some [] ∧
    (clear_conversation
        (query true true [] (QueryRequest.mk "q".toList "x".toList 3)
          (Except.ok []) (Except.error "boom".toList)).store
        "x".toList).message
      = "Conversation history cleared for session ".toList ++ "x".toList ∧
    (get_conversation
        (query true true [] (QueryRequest.mk "q".toList "x".toList 3)
          (Except.ok []) (Except.error "boom".toList)).store
        "x".toList).messages = [] :=
  claim_C10 [] (QueryRequest.mk "q".toList "x".toList 3) [] "boom".toList rfl

/-- A six-turn stored history: three user/assistant exchanges. -/
def sixTurns : List Turn :=
  [Turn.mk "user".toList "u1".toList, Turn.mk "assistant".toList "a1".toList,
   Turn.mk "user".toList "u2".toList, Turn.mk "assistant".toList "a2".toList,
   Turn.mk "user".toList "u3".toList, Turn.mk "assistant".toList "a3".toList]

/-- Claim C2, evaluated at the failing input: on a session holding six
turns the handler includes only the last five turns in the prompt
(`conversation_history[-5:]`), so only seven messages are sent, not the
eight (one system, six history, one final) that the last-ten-turns claim
requires. -/
theorem claim_C2 :
    sixTurns.length = 6 ∧
    recentTurns sixTurns = sixTurns.drop 1 ∧
    ((query true true [("s".toList, sixTurns)]
        (QueryRequest.mk "q".toList "s".toList 3)
        (Except.ok []) (Except.ok "a".toList)).sent.map List.length) = some 7 := by
  refine ⟨rfl, rfl, ?_⟩
  rfl

theorem rfindChar_append_txt (base : Str) :
    rfindChar (Char.ofNat 46) (base ++ ".txt".toList) = some base.length := by
  induction base with
  | nil => decide
  | cons x xs ih =>
    simp only [List.cons_append, rfindChar, List.append_eq, ih]
    rfl

theorem pathStem_append_txt (base : Str) (hb : base ≠ []) :
    pathStem (base ++ ".txt".toList) = base := by
  have h4 : (".txt".toList).length = 4 := by decide
  have hlen : (base ++ ".txt".toList).length = base.length + 4 := by
    simp [List.length_append, h4]
  have hpos : 0 < base.length := List.length_pos.mpr hb
  have hcond : 0 < base.length ∧ base.length < (base ++ ".txt".toList).length - 1 :=
    ⟨hpos, by rw [hlen]; omega⟩
  simp only [pathStem, rfindChar_append_txt]
  rw [if_pos hcond, List.take_left]

/-- Claim C8: every `.txt` file of the data directory yields exactly one
upload record `{id = filename without its extension, filename, content =
the full file text}`. -/
theorem claim_C8 (dir : List FileEntry) (base text : Str) (hb : base ≠ [])
    (hf : (FileEntry.mk (base ++ ".txt".toList) text) ∈ dir) :
    (DocRecord.mk base (base ++ ".txt".toList) text) ∈ read_documents dir ∧
    (read_documents dir).length = (txtGlob dir).length := by
  constructor
  · have hmem : (FileEntry.mk (base ++ ".txt".toList) text) ∈ txtGlob dir := by
      refine List.mem_filter.mpr ⟨hf, ?_⟩
      simp [List.isSuffixOf]
    rw [read_documents]
    refine List.mem_map.mpr ⟨FileEntry.mk (base ++ ".txt".toList) text, hmem, ?_⟩
    show DocRecord.mk (pathStem (base ++ ".txt".toList)) (base ++ ".txt".toList) text
      = DocRecord.mk base (base ++ ".txt".toList) text
    rw [pathStem_append_txt base hb]
  · simp [read_documents]

/-- Witness for C8 on a one-file directory. -/
theorem claim_C8_witness :
    (DocRecord.mk "a".toList ("a".toList ++ ".txt".toList) "hello".toList) ∈
      read_documents [FileEntry.mk ("a".toList ++ ".txt".toList) "hello".toList] ∧
    (read_documents [FileEntry.mk ("a".toList ++ ".txt".toList) "hello".toList]).length
      = (txtGlob [FileEntry.mk ("a".toList ++ ".txt".toList) "hello".toList]).length :=
  claim_C8 [FileEntry.mk ("a".toList ++ ".txt".toList) "hello".toList]
    "a".toList "hello".toList (by decide) (List.mem_singleton.mpr rfl)
